import Mathlib

/-!
Verification development for the brick-app marketplace repository:
a shallow embedding of the order lifecycle (creation, status updates,
audit history) and the claims about it.

Sources embedded:
- `shared/schema.ts` (enums, table shapes, insert-schema defaults),
- the server routes in the Express router (`router.post/patch/get` for
  `/api/orders` and friends) and the `DatabaseStorage` methods,
- the SQL migration's `track_order_state_change` trigger,
- the client checkout flow `handleCheckout` in `CustomerOrders.tsx`.

Monetary values are rationals (`ℚ`); the PostgreSQL cast to
`NUMERIC(10,2)` on storage is modelled explicitly (`numericScale2`).
Timestamps are a logical clock (`Db.clock`) incremented at every write,
which models `NOW()` / `new Date()` in a single-threaded execution.
-/

namespace BrickApp

/-- The `order_status` enum (13 values), from `shared/schema.ts`
(`orderStatusEnum`) and the SQL `CREATE TYPE order_status`. -/
inductive OrderStatus
  | created
  | pending_verification
  | seller_contacted
  | seller_accepted
  | seller_rejected
  | buyer_contacted
  | buyer_confirmed
  | buyer_rejected
  | confirmed
  | out_for_delivery
  | delivered
  | completed
  | rejected
  deriving DecidableEq, Repr

/-- The `payment_status` enum, from `shared/schema.ts`. -/
inductive PaymentStatus
  | pending
  | partial_pending
  | partial_paid
  | paid
  | failed
  | refunded
  deriving DecidableEq, Repr

/-- The `payment_method` enum, from `shared/schema.ts`. -/
inductive PaymentMethod
  | online
  | cod
  deriving DecidableEq, Repr

/-- The `app_role` enum, from `shared/schema.ts`. -/
inductive Role
  | customer
  | seller
  | admin
  deriving DecidableEq, Repr

/-- One element of an order's `items` jsonb snapshot, as produced by
`handleCheckout` in `CustomerOrders.tsx` (`product_id`, `title`,
`quantity`, `price`, `unit`). -/
structure OrderItem where
  productId : String
  title : String
  quantity : Nat
  price : ℚ
  unit : String
  deriving DecidableEq, Repr

/-- Round a rational to 2 decimal places, halves rounded up:
`round(q, 2)` on a nonnegative amount. -/
def round2 (q : ℚ) : ℚ := ((⌊q * 100 + 1 / 2⌋ : ℤ) : ℚ) / 100

/-- The PostgreSQL coercion of a value stored into a `NUMERIC(10,2)`
column (`decimal("...", { precision: 10, scale: 2 })` in
`shared/schema.ts`): round to 2 decimal places, halves away from zero. -/
def numericScale2 (q : ℚ) : ℚ := if 0 ≤ q then round2 q else -(round2 (-q))

/-- A rational that is a whole number of hundredths, i.e. representable
exactly in a 2-decimal column. -/
def TwoDecimal (q : ℚ) : Prop := ∃ n : ℤ, q = (n : ℚ) / 100

/-- A row of the `orders` table, from `shared/schema.ts`.
`deliveryAddress` stands for the jsonb address snapshot. -/
structure Order where
  id : String
  customerId : String
  sellerId : String
  items : List OrderItem
  subtotal : ℚ
  deliveryCharges : ℚ
  total : ℚ
  paymentMethod : PaymentMethod
  paymentStatus : PaymentStatus
  prepaymentAmount : Option ℚ
  status : OrderStatus
  deliveryAddress : String
  verifiedByAdminId : Option String
  sellerResponse : Option String
  buyerResponse : Option String
  rejectReason : Option String
  contactAttempts : Nat
  createdAt : Nat
  updatedAt : Nat
  deriving DecidableEq, Repr

/-- A row of the `order_state_history` table, from `shared/schema.ts`. -/
structure HistoryRow where
  id : Nat
  orderId : String
  status : OrderStatus
  changedBy : Option String
  note : Option String
  createdAt : Nat
  deriving DecidableEq, Repr

/-- A row of the `sellers` table (the fields the order routes use). -/
structure Seller where
  id : String
  userId : String
  deriving DecidableEq, Repr

/-- The relational store: `orders`, `order_state_history` and `sellers`
tables, plus a logical clock standing for wall-clock time (each write
happens at a strictly later instant than the previous one). -/
structure Db where
  orders : List Order
  history : List HistoryRow
  sellers : List Seller
  clock : Nat
  deriving Repr

/-- The authenticated requester, as decoded by `authMiddleware` from the
JWT (`req.userId`, `req.userRole`). -/
structure Session where
  userId : String
  role : Role
  deriving DecidableEq, Repr

/-- `DatabaseStorage.getOrder`: `SELECT ... FROM orders WHERE id = $1`. -/
def getOrder (db : Db) (id : String) : Option Order :=
  db.orders.find? (fun o => o.id == id)

/-- `DatabaseStorage.getSellerByUserId`:
`SELECT ... FROM sellers WHERE user_id = $1`. -/
def getSellerByUserId (db : Db) (userId : String) : Option Seller :=
  db.sellers.find? (fun s => s.userId == userId)

/-- `Partial<InsertOrder>` plus the extra `note` field the PATCH body
carries: every updatable `orders` column is optionally present.
A `some` for a nullable column may itself set the column to `none`. -/
structure OrderUpdate where
  customerId : Option String := none
  sellerId : Option String := none
  items : Option (List OrderItem) := none
  subtotal : Option ℚ := none
  deliveryCharges : Option ℚ := none
  total : Option ℚ := none
  paymentMethod : Option PaymentMethod := none
  paymentStatus : Option PaymentStatus := none
  prepaymentAmount : Option (Option ℚ) := none
  status : Option OrderStatus := none
  deliveryAddress : Option String := none
  verifiedByAdminId : Option (Option String) := none
  sellerResponse : Option (Option String) := none
  buyerResponse : Option (Option String) := none
  rejectReason : Option (Option String) := none
  contactAttempts : Option Nat := none
  note : Option String := none
  deriving DecidableEq, Repr

/-- The effect of `db.update(orders).set({ ...data, updatedAt: new Date() })`
on one row: present fields overwrite, absent fields keep the stored
value; `updatedAt` is stamped with the current time. Numeric columns go
through the `NUMERIC(10,2)` cast. `note` is not an `orders` column and
is ignored here. -/
def applyOrderUpdate (o : Order) (b : OrderUpdate) (now : Nat) : Order :=
  { o with
    customerId := b.customerId.getD o.customerId
    sellerId := b.sellerId.getD o.sellerId
    items := b.items.getD o.items
    subtotal := (b.subtotal.map numericScale2).getD o.subtotal
    deliveryCharges := (b.deliveryCharges.map numericScale2).getD o.deliveryCharges
    total := (b.total.map numericScale2).getD o.total
    paymentMethod := b.paymentMethod.getD o.paymentMethod
    paymentStatus := b.paymentStatus.getD o.paymentStatus
    prepaymentAmount := (b.prepaymentAmount.map (fun v => v.map numericScale2)).getD o.prepaymentAmount
    status := b.status.getD o.status
    deliveryAddress := b.deliveryAddress.getD o.deliveryAddress
    verifiedByAdminId := b.verifiedByAdminId.getD o.verifiedByAdminId
    sellerResponse := b.sellerResponse.getD o.sellerResponse
    buyerResponse := b.buyerResponse.getD o.buyerResponse
    rejectReason := b.rejectReason.getD o.rejectReason
    contactAttempts := b.contactAttempts.getD o.contactAttempts
    updatedAt := now }

/-- `DatabaseStorage.updateOrder`: `UPDATE orders SET ... WHERE id = $1
RETURNING *`. Returns the updated row (`undefined` when no row matches)
and the new store. -/
def updateOrder (db : Db) (id : String) (b : OrderUpdate) : Option Order × Db :=
  match getOrder db id with
  | none => (none, db)
  | some o =>
    let u := applyOrderUpdate o b db.clock
    (some u,
      { db with
        orders := db.orders.map (fun x => if x.id == id then u else x)
        clock := db.clock + 1 })

/-- `InsertOrderStateHistory`: the values handed to
`storage.createOrderStateHistory` (or produced by the trigger). -/
structure InsertHistory where
  orderId : String
  status : OrderStatus
  changedBy : Option String := none
  note : Option String := none
  deriving DecidableEq, Repr

/-- `DatabaseStorage.createOrderStateHistory`:
`INSERT INTO order_state_history ... RETURNING *`; the database assigns
the id and `created_at DEFAULT NOW()`. -/
def createOrderStateHistory (db : Db) (d : InsertHistory) : HistoryRow × Db :=
  let row : HistoryRow :=
    { id := db.history.length
      orderId := d.orderId
      status := d.status
      changedBy := d.changedBy
      note := d.note
      createdAt := db.clock }
  (row, { db with history := db.history ++ [row], clock := db.clock + 1 })

/-- `InsertOrder` (`insertOrderSchema` = all `orders` columns minus
`id`/`createdAt`/`updatedAt`): fields with a schema default or nullable
column are optional. -/
structure InsertOrderBody where
  customerId : String := ""
  sellerId : String
  items : List OrderItem
  subtotal : ℚ
  deliveryCharges : Option ℚ := none
  total : ℚ
  paymentMethod : PaymentMethod
  paymentStatus : Option PaymentStatus := none
  prepaymentAmount : Option ℚ := none
  status : Option OrderStatus := none
  deliveryAddress : String
  verifiedByAdminId : Option String := none
  sellerResponse : Option String := none
  buyerResponse : Option String := none
  rejectReason : Option String := none
  contactAttempts : Option Nat := none
  deriving DecidableEq, Repr

/-- `DatabaseStorage.createOrder`: `INSERT INTO orders ... RETURNING *`.
The database assigns the id (`gen_random_uuid()`, supplied here as
`newId`), stamps `created_at`/`updated_at`, applies the column defaults
(`delivery_charges 0`, `payment_status 'pending'`, `status 'created'`,
`contact_attempts 0`) and casts `NUMERIC(10,2)` columns. -/
def createOrder (db : Db) (newId : String) (d : InsertOrderBody) : Order × Db :=
  let o : Order :=
    { id := newId
      customerId := d.customerId
      sellerId := d.sellerId
      items := d.items
      subtotal := numericScale2 d.subtotal
      deliveryCharges := numericScale2 (d.deliveryCharges.getD 0)
      total := numericScale2 d.total
      paymentMethod := d.paymentMethod
      paymentStatus := d.paymentStatus.getD .pending
      prepaymentAmount := d.prepaymentAmount.map numericScale2
      status := d.status.getD .created
      deliveryAddress := d.deliveryAddress
      verifiedByAdminId := d.verifiedByAdminId
      sellerResponse := d.sellerResponse
      buyerResponse := d.buyerResponse
      rejectReason := d.rejectReason
      contactAttempts := d.contactAttempts.getD 0
      createdAt := db.clock
      updatedAt := db.clock }
  (o, { db with orders := db.orders ++ [o], clock := db.clock + 1 })

/-- Descending creation-time order between history rows
(`ORDER BY created_at DESC`). -/
def histLaterFirst (a b : HistoryRow) : Prop := b.createdAt ≤ a.createdAt

instance : DecidableRel histLaterFirst :=
  fun a b => inferInstanceAs (Decidable (b.createdAt ≤ a.createdAt))

instance : IsTotal HistoryRow histLaterFirst :=
  ⟨fun a b => (Nat.le_total b.createdAt a.createdAt).imp id id⟩

instance : IsTrans HistoryRow histLaterFirst :=
  ⟨fun _ _ _ hab hbc => Nat.le_trans hbc hab⟩

/-- Descending creation-time order between orders
(`ORDER BY created_at DESC`). -/
def orderLaterFirst (a b : Order) : Prop := b.createdAt ≤ a.createdAt

instance : DecidableRel orderLaterFirst :=
  fun a b => inferInstanceAs (Decidable (b.createdAt ≤ a.createdAt))

/-- `DatabaseStorage.getOrderStateHistory`: `SELECT ... FROM
order_state_history WHERE order_id = $1 ORDER BY created_at DESC`. -/
def getOrderStateHistory (db : Db) (orderId : String) : List HistoryRow :=
  List.insertionSort histLaterFirst (db.history.filter (fun r => r.orderId == orderId))

/-- `DatabaseStorage.getOrdersByCustomer`: rows with `customer_id = $1`,
newest first. -/
def getOrdersByCustomer (db : Db) (customerId : String) : List Order :=
  List.insertionSort orderLaterFirst (db.orders.filter (fun o => o.customerId == customerId))

/-- `DatabaseStorage.getOrdersBySeller`: rows with `seller_id = $1`,
newest first. -/
def getOrdersBySeller (db : Db) (sellerId : String) : List Order :=
  List.insertionSort orderLaterFirst (db.orders.filter (fun o => o.sellerId == sellerId))

/-- `DatabaseStorage.getOrdersByStatus`: rows whose `status` is in the
given list, newest first. -/
def getOrdersByStatus (db : Db) (statuses : List OrderStatus) : List Order :=
  List.insertionSort orderLaterFirst (db.orders.filter (fun o => statuses.contains o.status))

/-- Response of `PATCH /api/orders/:id`: 401 from `authMiddleware`,
404 `Order not found`, or `res.json(updatedOrder)` (the route does not
re-check that the update matched a row, hence the `Option`). -/
inductive PatchResult
  | unauthorized
  | notFound
  | ok (updated : Option Order)
  deriving DecidableEq, Repr

/-- The `router.patch("/api/orders/:id")` handler: authenticate, load the
order (404 when absent), apply `storage.updateOrder`, and append one
history row via `storage.createOrderStateHistory` exactly when the body
carries a `status` different from the stored one (`changedBy` = the
requester, `note` = the body's `note` field). -/
def patchOrderRoute (db : Db) (session : Option Session) (oid : String)
    (body : OrderUpdate) : PatchResult × Db :=
  match session with
  | none => (.unauthorized, db)
  | some s =>
    match getOrder db oid with
    | none => (.notFound, db)
    | some order =>
      let r := updateOrder db oid body
      match body.status with
      | some ns =>
        if ns ≠ order.status then
          let r2 := createOrderStateHistory r.2
            { orderId := order.id, status := ns, changedBy := some s.userId, note := body.note }
          (.ok r.1, r2.2)
        else (.ok r.1, r.2)
      | none => (.ok r.1, r.2)

/-- Response of `POST /api/orders`. -/
inductive PostResult
  | unauthorized
  | ok (order : Order)
  deriving DecidableEq, Repr

/-- The `router.post("/api/orders")` handler: parse the body with the
authenticated user substituted as `customerId`
(`insertOrderSchema.parse({ ...req.body, customerId: req.userId })`),
insert via `storage.createOrder`, then append the initial history row
(`status` = the stored order's status, `changedBy` = the requester,
no note). All other monetary and status fields come from the client
body. -/
def postOrderRoute (db : Db) (session : Option Session) (newId : String)
    (body : InsertOrderBody) : PostResult × Db :=
  match session with
  | none => (.unauthorized, db)
  | some s =>
    let data := { body with customerId := s.userId }
    let r := createOrder db newId data
    let r2 := createOrderStateHistory r.2
      { orderId := r.1.id, status := r.1.status, changedBy := some s.userId }
    (.ok r.1, r2.2)

/-- Response of `GET /api/orders/:id`. -/
inductive GetOrderResult
  | unauthorized
  | notFound
  | ok (order : Order)
  deriving DecidableEq, Repr

/-- The `router.get("/api/orders/:id")` handler: any authenticated
session may read any order; no ownership check. -/
def getOrderRoute (db : Db) (session : Option Session) (oid : String) : GetOrderResult :=
  match session with
  | none => .unauthorized
  | some _ =>
    match getOrder db oid with
    | none => .notFound
    | some o => .ok o

/-- The `router.get("/api/orders/:id/history")` handler: any
authenticated session receives the full history of any order id;
no existence or ownership check. `none` is the 401 response. -/
def getOrderHistoryRoute (db : Db) (session : Option Session) (oid : String) :
    Option (List HistoryRow) :=
  match session with
  | none => none
  | some _ => some (getOrderStateHistory db oid)

/-- Response of `GET /api/orders`. -/
inductive OrdersResult
  | notSeller
  | ok (orders : List Order)
  deriving DecidableEq, Repr

/-- The `router.get("/api/orders")` handler for an authenticated session:
customers get their own orders, sellers the orders of their seller
record (403 `Not a seller` when none exists), admins the orders matching
the requested status filter, defaulting to the four in-review
statuses. -/
def getOrdersRoute (db : Db) (s : Session) (statusQuery : Option (List OrderStatus)) :
    OrdersResult :=
  match s.role with
  | .customer => .ok (getOrdersByCustomer db s.userId)
  | .seller =>
    match getSellerByUserId db s.userId with
    | none => .notSeller
    | some seller => .ok (getOrdersBySeller db seller.id)
  | .admin =>
    match statusQuery with
    | some statuses => .ok (getOrdersByStatus db statuses)
    | none =>
      .ok (getOrdersByStatus db
        [.pending_verification, .seller_contacted, .seller_accepted, .buyer_contacted])

/-- The `CASE` expression of the SQL trigger `track_order_state_change`:
the note recorded with a transition is the first populated value among
`reject_reason`, `seller_response`, `buyer_response` on the new row,
else `NULL`. -/
def triggerNote (o : Order) : Option String :=
  match o.rejectReason with
  | some r => some r
  | none =>
    match o.sellerResponse with
    | some sr => some sr
    | none =>
      match o.buyerResponse with
      | some br => some br
      | none => none

/-- An `UPDATE` of one `orders` row through the Supabase client, followed
by the `track_order_state_change` trigger, which appends one history row
exactly when `OLD.status IS DISTINCT FROM NEW.status` — in the same
transaction as the update. -/
def supabaseUpdateOrder (db : Db) (authUid : Option String) (oid : String)
    (b : OrderUpdate) : Option Order × Db :=
  match getOrder db oid with
  | none => (none, db)
  | some old =>
    let r := updateOrder db oid b
    match r.1 with
    | none => (none, r.2)
    | some updated =>
      if updated.status ≠ old.status then
        let r2 := createOrderStateHistory r.2
          { orderId := updated.id, status := updated.status, changedBy := authUid
            note := triggerNote updated }
        (some updated, r2.2)
      else (some updated, r.2)

/-- Modelled from the spec: the transition graph of section 3. It exists
only in the specification — the source has no transition table — and is
used here to exhibit that the update path accepts transitions outside
it. -/
def allowedTransition : OrderStatus → OrderStatus → Bool
  | .created, .pending_verification => true
  | .pending_verification, .seller_contacted => true
  | .seller_contacted, .seller_accepted => true
  | .seller_contacted, .seller_rejected => true
  | .seller_accepted, .buyer_contacted => true
  | .buyer_contacted, .buyer_confirmed => true
  | .buyer_contacted, .buyer_rejected => true
  | .buyer_confirmed, .confirmed => true
  | .confirmed, .out_for_delivery => true
  | .out_for_delivery, .delivered => true
  | .delivered, .completed => true
  | .seller_rejected, .rejected => true
  | .buyer_rejected, .rejected => true
  | _, _ => false

/-! ### Basic facts about the storage operations -/

theorem getOrder_id {db : Db} {oid : String} {o : Order}
    (h : getOrder db oid = some o) : o.id = oid := by
  have := List.find?_some h
  exact eq_of_beq this

theorem applyOrderUpdate_id (o : Order) (b : OrderUpdate) (now : Nat) :
    (applyOrderUpdate o b now).id = o.id := rfl

theorem find?_map_replace (l : List Order) (oid : String) (o u : Order)
    (h : l.find? (fun x => x.id == oid) = some o) (hu : u.id = o.id) :
    (l.map (fun x => if x.id == oid then u else x)).find? (fun x => x.id == oid) = some u := by
  induction l with
  | nil => simp at h
  | cons a l ih =>
    rw [List.find?_cons] at h
    by_cases hb : (a.id == oid) = true
    · simp only [hb] at h
      have hao : a = o := Option.some.inj h
      have hid : (u.id == oid) = true := by rw [hu, ← hao]; exact hb
      simp only [List.map_cons, List.find?_cons, if_pos hb, hid]
    · have hbf : (a.id == oid) = false := by simpa using hb
      simp only [hbf] at h
      simp only [List.map_cons, List.find?_cons, if_neg hb]
      simp only [hbf]
      exact ih h

/-- Reduction of the PATCH handler in the successful, status-changing
case: a single combined effect — the order replaced by its updated
version, exactly one history row appended, the clock advanced by the
two writes. -/
theorem patchOrderRoute_status_change {db : Db} {s : Session} {oid : String}
    {body : OrderUpdate} {order : Order} {ns : OrderStatus}
    (hfind : getOrder db oid = some order) (hst : body.status = some ns)
    (hne : ns ≠ order.status) :
    patchOrderRoute db (some s) oid body =
      (.ok (some (applyOrderUpdate order body db.clock)),
       { orders := db.orders.map
           (fun x => if x.id == oid then applyOrderUpdate order body db.clock else x)
         history := db.history ++
           [⟨db.history.length, order.id, ns, some s.userId, body.note, db.clock + 1⟩]
         sellers := db.sellers
         clock := db.clock + 2 }) := by
  simp only [patchOrderRoute, updateOrder, createOrderStateHistory, hfind, hst]
  rw [if_pos hne]

/-- Reduction of the PATCH handler when the body's `status` equals the
stored one: the row is still rewritten (same status value), but no
history row is appended. -/
theorem patchOrderRoute_status_same {db : Db} {s : Session} {oid : String}
    {body : OrderUpdate} {order : Order}
    (hfind : getOrder db oid = some order) (hst : body.status = some order.status) :
    patchOrderRoute db (some s) oid body =
      (.ok (some (applyOrderUpdate order body db.clock)),
       { orders := db.orders.map
           (fun x => if x.id == oid then applyOrderUpdate order body db.clock else x)
         history := db.history
         sellers := db.sellers
         clock := db.clock + 1 }) := by
  simp only [patchOrderRoute, updateOrder, createOrderStateHistory, hfind, hst]
  rw [if_neg (by simp)]

theorem patchOrderRoute_not_found {db : Db} {s : Session} {oid : String}
    {body : OrderUpdate} (h : getOrder db oid = none) :
    patchOrderRoute db (some s) oid body = (.notFound, db) := by
  simp only [patchOrderRoute, h]

/-! ### Concrete fixtures used by witnesses and counterexamples -/

def sampleItems : List OrderItem :=
  [{ productId := "p1", title := "Red bricks", quantity := 100, price := 5, unit := "piece" }]

def sampleOrder : Order :=
  { id := "o1", customerId := "c1", sellerId := "sl1", items := sampleItems
    subtotal := 500, deliveryCharges := 50, total := 550
    paymentMethod := .cod, paymentStatus := .pending, prepaymentAmount := some 110
    status := .pending_verification, deliveryAddress := "12 Main St"
    verifiedByAdminId := none, sellerResponse := none, buyerResponse := none
    rejectReason := none, contactAttempts := 0, createdAt := 0, updatedAt := 0 }

def sampleRow : HistoryRow :=
  { id := 0, orderId := "o1", status := .pending_verification
    changedBy := some "c1", note := none, createdAt := 0 }

def sampleDb : Db :=
  { orders := [sampleOrder], history := [sampleRow]
    sellers := [{ id := "sl1", userId := "useller" }], clock := 1 }

def sampleAdmin : Session := { userId := "a1", role := .admin }

def sampleOrderDelivered : Order :=
  { sampleOrder with id := "o2", status := .delivered }

def sampleDb2 : Db :=
  { sampleDb with orders := [sampleOrder, sampleOrderDelivered] }

/-! ### Claims -/

/-- C1: for every successful status update through
`PATCH /api/orders/:id`, the stored status change and the append of
exactly one `OrderStateHistory` row (whose status equals the new stored
status) happen together in the one handler execution; on the failure
modes (missing session, order not found) the store is left completely
unchanged — no status change without a history row and no history row
without the status change. -/
theorem status_update_writes_history_atomically (db : Db) (s : Session)
    (oid : String) (body : OrderUpdate) :
    (∀ order ns, getOrder db oid = some order → body.status = some ns →
      ns ≠ order.status →
      ∃ u row,
        (patchOrderRoute db (some s) oid body).1 = .ok (some u) ∧
        u.status = ns ∧
        getOrder (patchOrderRoute db (some s) oid body).2 oid = some u ∧
        (patchOrderRoute db (some s) oid body).2.history = db.history ++ [row] ∧
        row.orderId = order.id ∧ row.status = ns) ∧
    (patchOrderRoute db none oid body).2 = db ∧
    (getOrder db oid = none → (patchOrderRoute db (some s) oid body).2 = db) := by
  refine ⟨?_, rfl, ?_⟩
  · intro order ns hfind hst hne
    refine ⟨applyOrderUpdate order body db.clock,
      ⟨db.history.length, order.id, ns, some s.userId, body.note, db.clock + 1⟩,
      ?_, ?_, ?_, ?_, rfl, rfl⟩
    · rw [patchOrderRoute_status_change hfind hst hne]
    · simp [applyOrderUpdate, hst]
    · rw [patchOrderRoute_status_change hfind hst hne]
      exact find?_map_replace db.orders oid order _ hfind rfl
    · rw [patchOrderRoute_status_change hfind hst hne]
  · intro h
    rw [patchOrderRoute_not_found h]

theorem status_update_writes_history_atomically_witness :
    ∃ u row,
      (patchOrderRoute sampleDb (some sampleAdmin) "o1"
        { status := some .seller_contacted }).1 = .ok (some u) ∧
      u.status = .seller_contacted ∧
      getOrder (patchOrderRoute sampleDb (some sampleAdmin) "o1"
        { status := some .seller_contacted }).2 "o1" = some u ∧
      (patchOrderRoute sampleDb (some sampleAdmin) "o1"
        { status := some .seller_contacted }).2.history = sampleDb.history ++ [row] ∧
      row.orderId = sampleOrder.id ∧ row.status = .seller_contacted :=
  (status_update_writes_history_atomically sampleDb sampleAdmin "o1"
    { status := some .seller_contacted }).1 sampleOrder .seller_contacted
    (by decide) rfl (by decide)

/-- C2: the PATCH handler applies any requested status `t ≠ s` from any
current status `s` and reports success; reachability per the section-3
transition graph is never consulted (the witness exercises
`delivered → created`, which the graph forbids). -/
theorem patch_ignores_transition_graph (db : Db) (s : Session) (oid : String)
    (order : Order) (t : OrderStatus)
    (hfind : getOrder db oid = some order) (hne : t ≠ order.status) :
    ∃ u, (patchOrderRoute db (some s) oid { status := some t }).1 = .ok (some u) ∧
      u.status = t ∧
      getOrder (patchOrderRoute db (some s) oid { status := some t }).2 oid = some u := by
  refine ⟨applyOrderUpdate order { status := some t } db.clock, ?_, ?_, ?_⟩
  · rw [patchOrderRoute_status_change hfind rfl hne]
  · simp [applyOrderUpdate]
  · rw [patchOrderRoute_status_change hfind rfl hne]
    exact find?_map_replace db.orders oid order _ hfind rfl

theorem patch_ignores_transition_graph_witness :
    allowedTransition .delivered .created = false ∧
    ∃ u, (patchOrderRoute sampleDb2 (some sampleAdmin) "o2"
        { status := some .created }).1 = .ok (some u) ∧
      u.status = .created ∧
      getOrder (patchOrderRoute sampleDb2 (some sampleAdmin) "o2"
        { status := some .created }).2 "o2" = some u :=
  ⟨by decide,
    patch_ignores_transition_graph sampleDb2 sampleAdmin "o2" sampleOrderDelivered
      .created (by decide) (by decide)⟩

/-- C3 counterexample: a PATCH that sets `status` and `reject_reason`
but carries no `note` field appends a history row with a `null` note,
even though `reject_reason` is populated on the updated order — so the
appended note is not the first populated value among `reject_reason`,
`seller_response`, `buyer_response` (which would be `"damaged"`). -/
theorem patch_note_not_derived_counterexample :
    ((patchOrderRoute sampleDb (some sampleAdmin) "o1"
        { status := some .rejected, rejectReason := some (some "damaged") }).2.history.getLast?).map
        (fun r => r.note) = some none ∧
    (getOrder (patchOrderRoute sampleDb (some sampleAdmin) "o1"
        { status := some .rejected, rejectReason := some (some "damaged") }).2 "o1").map
        triggerNote = some (some "damaged") ∧
    some (none : Option String) ≠ some (some "damaged") := by
  decide

/-- C3 amended: every successful status update appends a row carrying
the acting user's id.  On the trigger-backed (Supabase) update path the
row's note is the first populated value among `reject_reason`,
`seller_response`, `buyer_response` of the updated order (null when none
is populated); on the Express `PATCH /api/orders/:id` path the note is
the request body's own `note` field verbatim, not derived from those
columns. -/
theorem history_note_attribution (db : Db) (s : Session) (authUid : Option String)
    (oid : String) (body : OrderUpdate) (order : Order) (ns : OrderStatus)
    (hfind : getOrder db oid = some order) (hst : body.status = some ns)
    (hne : ns ≠ order.status) :
    (∃ row u, (supabaseUpdateOrder db authUid oid body).2.history = db.history ++ [row] ∧
      (supabaseUpdateOrder db authUid oid body).1 = some u ∧
      row.changedBy = authUid ∧
      row.note = (match u.rejectReason with
        | some r => some r
        | none =>
          match u.sellerResponse with
          | some sr => some sr
          | none =>
            match u.buyerResponse with
            | some br => some br
            | none => none)) ∧
    (∃ row, (patchOrderRoute db (some s) oid body).2.history = db.history ++ [row] ∧
      row.changedBy = some s.userId ∧ row.note = body.note) := by
  constructor
  · have hstat : (applyOrderUpdate order body db.clock).status = ns := by
      simp [applyOrderUpdate, hst]
    refine ⟨⟨db.history.length, (applyOrderUpdate order body db.clock).id,
        (applyOrderUpdate order body db.clock).status, authUid,
        triggerNote (applyOrderUpdate order body db.clock), db.clock + 1⟩,
      applyOrderUpdate order body db.clock, ?_, ?_, rfl, rfl⟩
    · simp only [supabaseUpdateOrder, updateOrder, createOrderStateHistory, hfind]
      rw [if_pos (by rw [hstat]; exact hne)]
    · simp only [supabaseUpdateOrder, updateOrder, createOrderStateHistory, hfind]
      rw [if_pos (by rw [hstat]; exact hne)]
  · exact ⟨_, by rw [patchOrderRoute_status_change hfind hst hne], rfl, rfl⟩

theorem history_note_attribution_witness :
    (∃ row u, (supabaseUpdateOrder sampleDb (some "a1") "o1"
        { status := some .rejected, rejectReason := some (some "damaged")
          note := some "called seller" }).2.history = sampleDb.history ++ [row] ∧
      (supabaseUpdateOrder sampleDb (some "a1") "o1"
        { status := some .rejected, rejectReason := some (some "damaged")
          note := some "called seller" }).1 = some u ∧
      row.changedBy = some "a1" ∧
      row.note = (match u.rejectReason with
        | some r => some r
        | none =>
          match u.sellerResponse with
          | some sr => some sr
          | none =>
            match u.buyerResponse with
            | some br => some br
            | none => none)) ∧
    (∃ row, (patchOrderRoute sampleDb (some sampleAdmin) "o1"
        { status := some .rejected, rejectReason := some (some "damaged")
          note := some "called seller" }).2.history = sampleDb.history ++ [row] ∧
      row.changedBy = some "a1" ∧ row.note = some "called seller") :=
  history_note_attribution sampleDb sampleAdmin (some "a1") "o1"
    { status := some .rejected, rejectReason := some (some "damaged")
      note := some "called seller" }
    sampleOrder .rejected (by decide) rfl (by decide)

/-- C4: an update whose `status` field equals the order's stored status
appends no history row — neither on the Express PATCH path (the handler
compares the body's status against the stored one) nor on the
trigger-backed path (`OLD.status IS DISTINCT FROM NEW.status` fails). -/
theorem noop_status_update_appends_no_history (db : Db) (s : Session)
    (authUid : Option String) (oid : String) (body : OrderUpdate) (order : Order)
    (hfind : getOrder db oid = some order) (hst : body.status = some order.status) :
    (patchOrderRoute db (some s) oid body).2.history = db.history ∧
    (supabaseUpdateOrder db authUid oid body).2.history = db.history := by
  have hstat : (applyOrderUpdate order body db.clock).status = order.status := by
    simp [applyOrderUpdate, hst]
  constructor
  · rw [patchOrderRoute_status_same hfind hst]
  · simp only [supabaseUpdateOrder, updateOrder, hfind]
    rw [if_neg (by simp [hstat])]

theorem noop_status_update_appends_no_history_witness :
    (patchOrderRoute sampleDb (some sampleAdmin) "o1"
      { status := some .pending_verification }).2.history = sampleDb.history ∧
    (supabaseUpdateOrder sampleDb (some "a1") "o1"
      { status := some .pending_verification }).2.history = sampleDb.history :=
  noop_status_update_appends_no_history sampleDb sampleAdmin (some "a1") "o1"
    { status := some .pending_verification } sampleOrder (by decide) rfl

/-! ### Arithmetic facts about the NUMERIC(10,2) cast -/

theorem round2_twoDecimal {q : ℚ} (h : TwoDecimal q) : round2 q = q := by
  obtain ⟨n, rfl⟩ := h
  unfold round2
  have harg : (n : ℚ) / 100 * 100 + 1 / 2 = (n : ℤ) + (1 / 2 : ℚ) := by ring
  rw [harg, Int.floor_int_add]
  norm_num

theorem numericScale2_twoDecimal {q : ℚ} (h : TwoDecimal q) : numericScale2 q = q := by
  unfold numericScale2
  split
  · exact round2_twoDecimal h
  · obtain ⟨n, rfl⟩ := h
    rw [show -((n : ℚ) / 100) = ((-n : ℤ) : ℚ) / 100 by push_cast; ring]
    rw [round2_twoDecimal ⟨-n, rfl⟩]
    push_cast
    ring

/-- C5 counterexample: a `POST /api/orders` whose body claims
`subtotal = 1`, `total = 999`, `prepayment_amount = 777` and
`status = delivered` — for an item list summing to 500 — is stored
verbatim: the server computes none of these fields. -/
theorem server_stores_client_totals_counterexample :
    (getOrder (postOrderRoute sampleDb (some ⟨"c1", .customer⟩) "o9"
        { sellerId := "sl1", items := sampleItems, subtotal := 1
          deliveryCharges := some 50, total := 999, paymentMethod := .cod
          prepaymentAmount := some 777, status := some .delivered
          deliveryAddress := "12 Main St" }).2 "o9").map
        (fun o => (o.subtotal, o.deliveryCharges, o.total, o.prepaymentAmount, o.status)) =
      some (1, 50, 999, some 777, OrderStatus.delivered) ∧
    (sampleItems.map (fun i => i.price * (i.quantity : ℚ))).sum = 500 ∧
    (1 : ℚ) ≠ 500 ∧ (999 : ℚ) ≠ 1 + 50 := by
  refine ⟨?_, by norm_num [sampleItems], by norm_num, by norm_num⟩
  have h1 : numericScale2 1 = 1 := numericScale2_twoDecimal ⟨100, by norm_num⟩
  have h50 : numericScale2 50 = 50 := numericScale2_twoDecimal ⟨5000, by norm_num⟩
  have h999 : numericScale2 999 = 999 := numericScale2_twoDecimal ⟨99900, by norm_num⟩
  have h777 : numericScale2 777 = 777 := numericScale2_twoDecimal ⟨77700, by norm_num⟩
  simp [postOrderRoute, createOrder, createOrderStateHistory, getOrder, sampleDb,
    sampleOrder, List.find?, h1, h50, h999, h777]

/-- C5 amended: `POST /api/orders` overrides only `customer_id` with the
authenticated user's id; `subtotal`, `total`, `prepayment_amount` and
`status` are stored as supplied by the client (through the
`NUMERIC(10,2)` cast, with the schema defaults for absent fields) — the
totals are computed in the client checkout flow, not by the server. -/
theorem post_order_stores_client_fields (db : Db) (s : Session) (newId : String)
    (body : InsertOrderBody) :
    ∃ o, (postOrderRoute db (some s) newId body).1 = .ok o ∧
      o.customerId = s.userId ∧
      o.subtotal = numericScale2 body.subtotal ∧
      o.total = numericScale2 body.total ∧
      o.prepaymentAmount = body.prepaymentAmount.map numericScale2 ∧
      o.status = body.status.getD .created :=
  ⟨_, rfl, rfl, rfl, rfl, rfl, rfl⟩

/-- C8: the history query returns exactly the rows recorded for the
given order id — a permutation of the table's rows with that id, hence
the same count N — sorted by creation time descending (most recent
first). -/
theorem history_query_complete_sorted_desc (db : Db) (oid : String) :
    (getOrderStateHistory db oid).Perm
      (db.history.filter (fun r => r.orderId == oid)) ∧
    (getOrderStateHistory db oid).length =
      (db.history.filter (fun r => r.orderId == oid)).length ∧
    List.Sorted histLaterFirst (getOrderStateHistory db oid) ∧
    (∀ r, r ∈ getOrderStateHistory db oid ↔ r ∈ db.history ∧ r.orderId = oid) := by
  have hperm :=
    List.perm_insertionSort histLaterFirst (db.history.filter (fun r => r.orderId == oid))
  refine ⟨hperm, hperm.length_eq, List.sorted_insertionSort histLaterFirst _, ?_⟩
  intro r
  rw [getOrderStateHistory, hperm.mem_iff, List.mem_filter]
  simp

/-- C9: role scoping of `GET /api/orders` — a customer only receives
orders whose `customer_id` is their own id; a seller only orders whose
`seller_id` is their seller record's id; an admin without a status
filter only orders in the four in-review statuses. -/
theorem orders_list_role_visibility (db : Db) (s : Session) :
    (s.role = .customer → ∀ l, getOrdersRoute db s none = .ok l →
      ∀ o ∈ l, o.customerId = s.userId) ∧
    (s.role = .seller → ∀ seller, getSellerByUserId db s.userId = some seller →
      ∀ l, getOrdersRoute db s none = .ok l → ∀ o ∈ l, o.sellerId = seller.id) ∧
    (s.role = .admin → ∀ l, getOrdersRoute db s none = .ok l →
      ∀ o ∈ l, o.status ∈ [OrderStatus.pending_verification, .seller_contacted,
        .seller_accepted, .buyer_contacted]) := by
  refine ⟨?_, ?_, ?_⟩
  · intro hrole l hl o ho
    simp only [getOrdersRoute, hrole, OrdersResult.ok.injEq] at hl
    subst hl
    rw [getOrdersByCustomer, (List.perm_insertionSort _ _).mem_iff, List.mem_filter] at ho
    exact eq_of_beq ho.2
  · intro hrole seller hsel l hl o ho
    simp only [getOrdersRoute, hrole, hsel, OrdersResult.ok.injEq] at hl
    subst hl
    rw [getOrdersBySeller, (List.perm_insertionSort _ _).mem_iff, List.mem_filter] at ho
    exact eq_of_beq ho.2
  · intro hrole l hl o ho
    simp only [getOrdersRoute, hrole, OrdersResult.ok.injEq] at hl
    subst hl
    rw [getOrdersByStatus, (List.perm_insertionSort _ _).mem_iff, List.mem_filter] at ho
    simpa using ho.2

theorem orders_list_role_visibility_witness :
    (∀ o ∈ getOrdersByCustomer sampleDb "c1", o.customerId = "c1") ∧
    (∀ o ∈ getOrdersBySeller sampleDb "sl1", o.sellerId = "sl1") ∧
    (∀ o ∈ getOrdersByStatus sampleDb [OrderStatus.pending_verification,
        .seller_contacted, .seller_accepted, .buyer_contacted],
      o.status ∈ [OrderStatus.pending_verification, .seller_contacted,
        .seller_accepted, .buyer_contacted]) :=
  ⟨(orders_list_role_visibility sampleDb ⟨"c1", .customer⟩).1 rfl _ rfl,
   (orders_list_role_visibility sampleDb ⟨"useller", .seller⟩).2.1 rfl
     ⟨"sl1", "useller"⟩ (by decide) _ rfl,
   (orders_list_role_visibility sampleDb ⟨"a1", .admin⟩).2.2 rfl _ rfl⟩

/-- C10: the single-order endpoints `GET /api/orders/:id` and
`GET /api/orders/:id/history` answer identically for any two
authenticated requesters — they check only that a session exists, never
who it belongs to. -/
theorem single_order_endpoints_requester_independent (db : Db) (oid : String)
    (s1 s2 : Session) :
    getOrderRoute db (some s1) oid = getOrderRoute db (some s2) oid ∧
    getOrderHistoryRoute db (some s1) oid = getOrderHistoryRoute db (some s2) oid :=
  ⟨rfl, rfl⟩

end BrickApp
